import Mathlib

/-!
# CashFlow: shallow embedding and verification

A shallow embedding of the CashFlow repository's data-access layer
(`src/CashFlow/models/Category.py`, `Expense.py`, `Earning.py`,
`src/CashFlow/database.py`) together with theorems settling the spec's
claims about it.

Every service function of the source acquires its session with
`with get_session() as sess:`, but `get_session` (`database.py`) contains
`yield`, so it is a generator function and the call returns a generator
object — not a context manager.  The `with` header therefore raises
`TypeError` to the caller before any service body runs, on every input.
The embedding has two layers accordingly.

The `..._call` definitions embed the service functions themselves: a
model of the Python context-manager protocol (`withStmt`,
`get_session_call`) wrapping the transaction body; each one returns
`Except.error` for the raised `TypeError`, on every input, exactly as
the source functions do.

The plain definitions (`create_category`, `update_expense`, ...) embed
the transaction bodies — the code inside the `with` block as it would
execute on an acquired session.  In the source these bodies are
unreachable dead code; they are kept because the `..._call` functions
are built from them.  Their conventions: the database is an explicit
`Store` record threaded through; work before `sess.commit()` is not
persisted on an early return; `select ... first()` is `List.find?`,
`UPDATE` of the row with a given primary key maps over the table,
`DELETE` erases the found row; Python `str.lower()` is `pyLower`
(character-wise lower-casing; the strings involved are ASCII); dates are
`Nat` (Python `date` is totally ordered and only compared), amounts
`Int` (stored and copied, never computed with).
-/

namespace CashFlow

/-- Category row (`models/Category.py`): id (primary key), unique name, type. -/
structure Category where
  id : Nat
  name : String
  type : String
  deriving Repr, DecidableEq

/-- Expense row (`models/Expense.py`): id, transaction_date, amount,
optional description, category_id (foreign key to category). -/
structure Expense where
  id : Nat
  transaction_date : Nat
  amount : Int
  description : Option String
  category_id : Nat
  deriving Repr, DecidableEq

/-- Earning row (`models/Earning.py`): same shape as Expense. -/
structure Earning where
  id : Nat
  transaction_date : Nat
  amount : Int
  description : Option String
  category_id : Nat
  deriving Repr, DecidableEq

/-- The database state: the three tables the services touch, plus the
next auto-increment primary key for each (SQLite assigns 1, 2, ...). -/
structure Store where
  categories : List Category
  expenses : List Expense
  earnings : List Earning
  nextCategoryId : Nat
  nextExpenseId : Nat
  nextEarningId : Nat
  deriving Repr, DecidableEq

/-- The empty database, as after `init_db()`. -/
def emptyStore : Store := ⟨[], [], [], 1, 1, 1⟩

/-! ## Category service transaction bodies (`models/Category.py`)

The definitions in this and the next two sections are the bodies under
`with get_session() as sess:`.  In the source none of them ever runs —
the `with` header raises first; the full service functions, session
acquisition included, are the `..._call` definitions further below. -/

/-- Transaction body of `get_category_by_id`: `select(Category).where(Category.id == category_id)`,
then `.first()`. -/
def get_category_by_id (s : Store) (category_id : Nat) : Option Category :=
  s.categories.find? (fun c => c.id == category_id)

/-- Transaction body of `get_category_by_name`: `select(Category).where(Category.name == category_name)`,
then `.first()`. -/
def get_category_by_name (s : Store) (category_name : String) : Option Category :=
  s.categories.find? (fun c => c.name == category_name)

/-- Transaction body of `get_all_categories`: `select(Category)`, `.all()`. -/
def get_all_categories (s : Store) : List Category :=
  s.categories

/-- Transaction body of `get_categories_by_type`: `select(Category).where(Category.type == category_type)`,
`.all()`.  SQL `=` on these strings is exact (binary collation), so the
filter is exact string equality. -/
def get_categories_by_type (s : Store) (category_type : String) : List Category :=
  s.categories.filter (fun c => c.type == category_type)

/-- Transaction body of `create_category(category_name, category_type)`: inserts a new row and
returns its id; the unique constraint on `name` makes `commit` raise
`IntegrityError` when the name already exists, which the handler converts
to `None` (and the failed transaction is rolled back, leaving the table
unchanged). -/
def create_category (category_name category_type : String) (s : Store) :
    Option Nat × Store :=
  if s.categories.any (fun c => c.name == category_name) then
    (none, s)
  else
    let category : Category := ⟨s.nextCategoryId, category_name, category_type⟩
    (some category.id,
      { s with categories := s.categories ++ [category],
               nextCategoryId := s.nextCategoryId + 1 })

/-- Transaction body of `update_category(category_id, new_name, new_type)`: not-found gives
`None`; each field changes only if provided; `commit` raises
`IntegrityError` (converted to `None`, transaction rolled back) when the
resulting name collides with a different category's name. -/
def update_category (category_id : Nat) (new_name new_type : Option String)
    (s : Store) : Option Category × Store :=
  match s.categories.find? (fun c => c.id == category_id) with
  | none => (none, s)
  | some category =>
    let updated : Category :=
      { category with
        name := new_name.getD category.name,
        type := new_type.getD category.type }
    if s.categories.any (fun c => c.id != category_id && c.name == updated.name) then
      (none, s)
    else
      (some updated,
        { s with categories :=
            s.categories.map (fun c => if c.id == category_id then updated else c) })

/-- Transaction body of `delete_category(category_id)`: deletes the row if present and returns
`True`, else returns `False`.  (Behaviour towards rows referencing the
category is decided by the ORM relationship machinery, which is external;
the spec leaves deletion cascades an open question.  Only the category
row itself is removed here.) -/
def delete_category (category_id : Nat) (s : Store) : Bool × Store :=
  match s.categories.find? (fun c => c.id == category_id) with
  | some _ =>
    (true, { s with categories := s.categories.eraseP (fun c => c.id == category_id) })
  | none => (false, s)

/-! ## Expense service transaction bodies (`models/Expense.py`) -/

/-- Python `str.lower()` as used on category-type strings: lower-case each
character. -/
def pyLower (str : String) : String := ⟨str.data.map Char.toLower⟩

/-- Transaction body of `create_expense(transaction_date, amount, category_id, description)`:
rejects (returns `None`, nothing persisted) when the category does not
exist or `category.type.lower() != 'expense'`; otherwise inserts and
returns the new id. -/
def create_expense (transaction_date : Nat) (amount : Int) (category_id : Nat)
    (description : Option String) (s : Store) : Option Nat × Store :=
  match get_category_by_id s category_id with
  | none => (none, s)
  | some category =>
    if pyLower category.type != "expense" then
      (none, s)
    else
      let expense : Expense :=
        ⟨s.nextExpenseId, transaction_date, amount, description, category_id⟩
      (some expense.id,
        { s with expenses := s.expenses ++ [expense],
                 nextExpenseId := s.nextExpenseId + 1 })

/-- Transaction body of `get_expense_by_id`. -/
def get_expense_by_id (s : Store) (expense_id : Nat) : Option Expense :=
  s.expenses.find? (fun e => e.id == expense_id)

/-- Transaction body of `get_expenses_by_category`: empty list if the category does not exist,
else all expenses with that `category_id`. -/
def get_expenses_by_category (s : Store) (category_id : Nat) : List Expense :=
  match get_category_by_id s category_id with
  | none => []
  | some _ => s.expenses.filter (fun e => e.category_id == category_id)

/-- Transaction body of `get_expenses_by_range(start_date, end_date)`: the expenses with
`start_date <= transaction_date` and `transaction_date <= end_date`. -/
def get_expenses_by_range (s : Store) (start_date end_date : Nat) : List Expense :=
  s.expenses.filter (fun e =>
    decide (start_date ≤ e.transaction_date) && decide (e.transaction_date ≤ end_date))

/-- Transaction body of `update_expense(expense_id, new_transaction_date, new_amount,
new_category_id, new_description)`: not-found gives `None`; provided
fields are set on the in-memory object; if `new_category_id` is provided
and differs from the current `category_id` it is validated (exists, and
`type.lower() == 'expense'`), a failed validation returning `None` before
`commit`, so nothing is persisted; otherwise the row is committed. -/
def update_expense (expense_id : Nat) (new_transaction_date : Option Nat)
    (new_amount : Option Int) (new_category_id : Option Nat)
    (new_description : Option String) (s : Store) : Option Expense × Store :=
  match s.expenses.find? (fun e => e.id == expense_id) with
  | none => (none, s)
  | some expense =>
    let staged : Expense :=
      { expense with
        transaction_date := new_transaction_date.getD expense.transaction_date,
        amount := new_amount.getD expense.amount,
        description := match new_description with
          | some d => some d
          | none => expense.description }
    let commit : Expense → Option Expense × Store := fun final =>
      (some final,
        { s with expenses :=
            s.expenses.map (fun e => if e.id == expense_id then final else e) })
    match new_category_id with
    | some ncid =>
      if ncid ≠ expense.category_id then
        match get_category_by_id s ncid with
        | none => (none, s)
        | some category =>
          if pyLower category.type != "expense" then (none, s)
          else commit { staged with category_id := ncid }
      else commit staged
    | none => commit staged

/-- Transaction body of `delete_expense(expense_id)`: deletes the row if present (`True`),
else `False`. -/
def delete_expense (expense_id : Nat) (s : Store) : Bool × Store :=
  match s.expenses.find? (fun e => e.id == expense_id) with
  | some _ =>
    (true, { s with expenses := s.expenses.eraseP (fun e => e.id == expense_id) })
  | none => (false, s)

/-! ## Earning service transaction bodies (`models/Earning.py`) — mirror the
expense bodies with expected category type `'earning'`. -/

/-- Transaction body of `create_earning`. -/
def create_earning (transaction_date : Nat) (amount : Int) (category_id : Nat)
    (description : Option String) (s : Store) : Option Nat × Store :=
  match get_category_by_id s category_id with
  | none => (none, s)
  | some category =>
    if pyLower category.type != "earning" then
      (none, s)
    else
      let earning : Earning :=
        ⟨s.nextEarningId, transaction_date, amount, description, category_id⟩
      (some earning.id,
        { s with earnings := s.earnings ++ [earning],
                 nextEarningId := s.nextEarningId + 1 })

/-- Transaction body of `get_earning_by_id`. -/
def get_earning_by_id (s : Store) (earning_id : Nat) : Option Earning :=
  s.earnings.find? (fun e => e.id == earning_id)

/-- Transaction body of `get_earning_by_category`. -/
def get_earning_by_category (s : Store) (category_id : Nat) : List Earning :=
  match get_category_by_id s category_id with
  | none => []
  | some _ => s.earnings.filter (fun e => e.category_id == category_id)

/-- Transaction body of `get_earnings_by_range(start_date, end_date)`. -/
def get_earnings_by_range (s : Store) (start_date end_date : Nat) : List Earning :=
  s.earnings.filter (fun e =>
    decide (start_date ≤ e.transaction_date) && decide (e.transaction_date ≤ end_date))

/-- Transaction body of `update_earning`: as `update_expense`, expected type `'earning'`. -/
def update_earning (earning_id : Nat) (new_transaction_date : Option Nat)
    (new_amount : Option Int) (new_category_id : Option Nat)
    (new_description : Option String) (s : Store) : Option Earning × Store :=
  match s.earnings.find? (fun e => e.id == earning_id) with
  | none => (none, s)
  | some earning =>
    let staged : Earning :=
      { earning with
        transaction_date := new_transaction_date.getD earning.transaction_date,
        amount := new_amount.getD earning.amount,
        description := match new_description with
          | some d => some d
          | none => earning.description }
    let commit : Earning → Option Earning × Store := fun final =>
      (some final,
        { s with earnings :=
            s.earnings.map (fun e => if e.id == earning_id then final else e) })
    match new_category_id with
    | some ncid =>
      if ncid ≠ earning.category_id then
        match get_category_by_id s ncid with
        | none => (none, s)
        | some category =>
          if pyLower category.type != "earning" then (none, s)
          else commit { staged with category_id := ncid }
      else commit staged
    | none => commit staged

/-- Transaction body of `delete_earning(earning_id)`. -/
def delete_earning (earning_id : Nat) (s : Store) : Bool × Store :=
  match s.earnings.find? (fun e => e.id == earning_id) with
  | some _ =>
    (true, { s with earnings := s.earnings.eraseP (fun e => e.id == earning_id) })
  | none => (false, s)

/-! ## Session acquisition at the Python level (`database.py`)

`database.py` defines

    def get_session():
        with Session(engine) as session:
            yield session

a *generator function* (its body contains `yield`), so a call
`get_session()` returns a generator object.  Every service function then
executes `with get_session() as sess:` and only *inside* that block opens
its `try`/`except`.  A Python `with` statement requires the value to
implement the context-manager protocol; a generator object does not, so
the `with` header raises `TypeError` before the `try` is entered.  The
following definitions model exactly that layer. -/

/-- The kinds of Python objects relevant to session acquisition. -/
inductive PyObject where
  | generatorObject
  | sessionObject
  deriving Repr, DecidableEq

/-- Whether the object implements the context-manager protocol
(`enter`/`exit` methods).  `Session` instances do; generator objects,
unless wrapped with `contextlib.contextmanager` (which `get_session` is
not), do not. -/
def isContextManager : PyObject → Bool
  | .sessionObject => true
  | .generatorObject => false

/-- A call `get_session()` (`database.py` line 9): the function body
contains `yield`, so the call returns a generator object without running
any of the body. -/
def get_session_call : PyObject := PyObject.generatorObject

/-- A Python `with EXPR as v: BODY` statement: if `EXPR`'s value is a
context manager the body runs; otherwise a `TypeError` is raised at the
`with` header. -/
def withStmt {α : Type} (obj : PyObject) (body : PyObject → Except String α) :
    Except String α :=
  if isContextManager obj then body obj
  else Except.error "TypeError: object does not support the context manager protocol"

/-- Transaction body of `create_category` at the exception level: the service body (whose
`try`/`except` converts any exception raised inside it to `None`) runs
under `with get_session() as sess:`.  The result is `Except.error` when
an exception escapes to the caller. -/
def create_category_call (category_name category_type : String) (s : Store) :
    Except String (Option Nat × Store) :=
  withStmt get_session_call
    (fun _sess => Except.ok (create_category category_name category_type s))

/-- Transaction body of `create_expense` at the exception level, same session pattern. -/
def create_expense_call (transaction_date : Nat) (amount : Int) (category_id : Nat)
    (description : Option String) (s : Store) :
    Except String (Option Nat × Store) :=
  withStmt get_session_call
    (fun _sess => Except.ok (create_expense transaction_date amount category_id description s))

/-! ## The remaining service functions at the exception level

Each source function is `with get_session() as sess:` around its
transaction body; since `get_session()` yields a generator object, the
header raises and the body never runs.  Read-only operations return no
store; mutating ones would return the result paired with the post-state,
had the session been acquired. -/

/-- Source `get_category_by_id`. -/
def get_category_by_id_call (s : Store) (category_id : Nat) :
    Except String (Option Category) :=
  withStmt get_session_call (fun _sess => Except.ok (get_category_by_id s category_id))

/-- Source `get_category_by_name`. -/
def get_category_by_name_call (s : Store) (category_name : String) :
    Except String (Option Category) :=
  withStmt get_session_call (fun _sess => Except.ok (get_category_by_name s category_name))

/-- Source `get_all_categories`. -/
def get_all_categories_call (s : Store) : Except String (List Category) :=
  withStmt get_session_call (fun _sess => Except.ok (get_all_categories s))

/-- Source `get_categories_by_type`. -/
def get_categories_by_type_call (s : Store) (category_type : String) :
    Except String (List Category) :=
  withStmt get_session_call (fun _sess => Except.ok (get_categories_by_type s category_type))

/-- Source `update_category`. -/
def update_category_call (category_id : Nat) (new_name new_type : Option String)
    (s : Store) : Except String (Option Category × Store) :=
  withStmt get_session_call
    (fun _sess => Except.ok (update_category category_id new_name new_type s))

/-- Source `delete_category`. -/
def delete_category_call (category_id : Nat) (s : Store) : Except String (Bool × Store) :=
  withStmt get_session_call (fun _sess => Except.ok (delete_category category_id s))

/-- Source `get_expense_by_id`. -/
def get_expense_by_id_call (s : Store) (expense_id : Nat) :
    Except String (Option Expense) :=
  withStmt get_session_call (fun _sess => Except.ok (get_expense_by_id s expense_id))

/-- Source `get_expenses_by_category`. -/
def get_expenses_by_category_call (s : Store) (category_id : Nat) :
    Except String (List Expense) :=
  withStmt get_session_call (fun _sess => Except.ok (get_expenses_by_category s category_id))

/-- Source `get_expenses_by_range`. -/
def get_expenses_by_range_call (s : Store) (start_date end_date : Nat) :
    Except String (List Expense) :=
  withStmt get_session_call
    (fun _sess => Except.ok (get_expenses_by_range s start_date end_date))

/-- Source `update_expense`. -/
def update_expense_call (expense_id : Nat) (new_transaction_date : Option Nat)
    (new_amount : Option Int) (new_category_id : Option Nat)
    (new_description : Option String) (s : Store) :
    Except String (Option Expense × Store) :=
  withStmt get_session_call (fun _sess => Except.ok
    (update_expense expense_id new_transaction_date new_amount new_category_id
      new_description s))

/-- Source `delete_expense`. -/
def delete_expense_call (expense_id : Nat) (s : Store) : Except String (Bool × Store) :=
  withStmt get_session_call (fun _sess => Except.ok (delete_expense expense_id s))

/-- Source `create_earning`. -/
def create_earning_call (transaction_date : Nat) (amount : Int) (category_id : Nat)
    (description : Option String) (s : Store) : Except String (Option Nat × Store) :=
  withStmt get_session_call (fun _sess => Except.ok
    (create_earning transaction_date amount category_id description s))

/-- Source `get_earning_by_id`. -/
def get_earning_by_id_call (s : Store) (earning_id : Nat) :
    Except String (Option Earning) :=
  withStmt get_session_call (fun _sess => Except.ok (get_earning_by_id s earning_id))

/-- Source `get_earning_by_category`. -/
def get_earning_by_category_call (s : Store) (category_id : Nat) :
    Except String (List Earning) :=
  withStmt get_session_call (fun _sess => Except.ok (get_earning_by_category s category_id))

/-- Source `get_earnings_by_range`. -/
def get_earnings_by_range_call (s : Store) (start_date end_date : Nat) :
    Except String (List Earning) :=
  withStmt get_session_call
    (fun _sess => Except.ok (get_earnings_by_range s start_date end_date))

/-- Source `update_earning`. -/
def update_earning_call (earning_id : Nat) (new_transaction_date : Option Nat)
    (new_amount : Option Int) (new_category_id : Option Nat)
    (new_description : Option String) (s : Store) :
    Except String (Option Earning × Store) :=
  withStmt get_session_call (fun _sess => Except.ok
    (update_earning earning_id new_transaction_date new_amount new_category_id
      new_description s))

/-- Source `delete_earning`. -/
def delete_earning_call (earning_id : Nat) (s : Store) : Except String (Bool × Store) :=
  withStmt get_session_call (fun _sess => Except.ok (delete_earning earning_id s))

/-! ## The referential-integrity invariant (spec section 3) -/

/-- Helper for stating the invariant: does `category_id` resolve in
`cats` to a category whose type is `kind` case-insensitively? -/
def resolvesTo (cats : List Category) (category_id : Nat) (kind : String) : Bool :=
  match cats.find? (fun c => c.id == category_id) with
  | some c => pyLower c.type == kind
  | none => false

/-- The spec's invariant: every expense's `category_id` resolves to an
existing category whose type is `'expense'` case-insensitively, and
every earning's to one of type `'earning'`. -/
def storeInv (s : Store) : Bool :=
  s.expenses.all (fun e => resolvesTo s.categories e.category_id "expense") &&
  s.earnings.all (fun e => resolvesTo s.categories e.category_id "earning")

/-- A sample populated store used to instantiate theorems on concrete
inputs: one category of each type, one expense, one earning. -/
def sampleStore : Store :=
  { categories := [⟨1, "Groceries", "expense"⟩, ⟨2, "Salary", "earning"⟩],
    expenses := [⟨1, 20240105, 4250, some "milk", 1⟩],
    earnings := [⟨1, 20240110, 300000, none, 2⟩],
    nextCategoryId := 3, nextExpenseId := 2, nextEarningId := 2 }

/-- A store whose category types differ from the canonical spellings only
in letter case, for the case-insensitivity claims. -/
def caseStore : Store :=
  { categories := [⟨1, "Groceries", "EXPENSE"⟩, ⟨2, "Salary", "Earning"⟩],
    expenses := [⟨1, 20240105, 4250, none, 1⟩],
    earnings := [⟨1, 20240110, 300000, none, 2⟩],
    nextCategoryId := 3, nextExpenseId := 2, nextEarningId := 2 }

/-! ## Reachability through the service layer -/

/-- Database states reachable from the empty store through the source's
service operations.  A mutating call contributes a new state only when
it completes normally with a post-state (`Except.ok`); a call that
raises never enters its transaction, so the store is left exactly as it
was, and the read-only operations return no store at all.  One
constructor per mutating service function. -/
inductive Reachable : Store → Prop where
  | empty : Reachable emptyStore
  | create_category_step {s s' : Store} {n t : String} {r : Option Nat}
      (hs : Reachable s) (h : create_category_call n t s = Except.ok (r, s')) :
      Reachable s'
  | update_category_step {s s' : Store} {i : Nat} {nn nt : Option String}
      {r : Option Category} (hs : Reachable s)
      (h : update_category_call i nn nt s = Except.ok (r, s')) : Reachable s'
  | delete_category_step {s s' : Store} {i : Nat} {r : Bool} (hs : Reachable s)
      (h : delete_category_call i s = Except.ok (r, s')) : Reachable s'
  | create_expense_step {s s' : Store} {d : Nat} {a : Int} {cid : Nat}
      {ds : Option String} {r : Option Nat} (hs : Reachable s)
      (h : create_expense_call d a cid ds s = Except.ok (r, s')) : Reachable s'
  | update_expense_step {s s' : Store} {i : Nat} {nd : Option Nat} {na : Option Int}
      {nc : Option Nat} {nds : Option String} {r : Option Expense} (hs : Reachable s)
      (h : update_expense_call i nd na nc nds s = Except.ok (r, s')) : Reachable s'
  | delete_expense_step {s s' : Store} {i : Nat} {r : Bool} (hs : Reachable s)
      (h : delete_expense_call i s = Except.ok (r, s')) : Reachable s'
  | create_earning_step {s s' : Store} {d : Nat} {a : Int} {cid : Nat}
      {ds : Option String} {r : Option Nat} (hs : Reachable s)
      (h : create_earning_call d a cid ds s = Except.ok (r, s')) : Reachable s'
  | update_earning_step {s s' : Store} {i : Nat} {nd : Option Nat} {na : Option Int}
      {nc : Option Nat} {nds : Option String} {r : Option Earning} (hs : Reachable s)
      (h : update_earning_call i nd na nc nds s = Except.ok (r, s')) : Reachable s'
  | delete_earning_step {s s' : Store} {i : Nat} {r : Bool} (hs : Reachable s)
      (h : delete_earning_call i s = Except.ok (r, s')) : Reachable s'

/-! ## Claims -/

/-- C2: the spec's error-handling policy says no service operation
propagates a raised exception; but `get_session` is a generator function
and every service runs `with get_session() as sess:` with the
`try`/`except` only inside the block, so the `with` header raises
`TypeError` to the caller on every invocation.  The code contradicts its
own evident intent (a `try`/`except` wrapping every body); this evaluates
the faithful exception-level model on concrete and arbitrary inputs. -/
theorem C2_exception_escapes :
    (∀ (n t : String) (s : Store), create_category_call n t s =
      Except.error "TypeError: object does not support the context manager protocol") ∧
    (∀ (d : Nat) (a : Int) (cid : Nat) (ds : Option String) (s : Store),
      create_expense_call d a cid ds s =
        Except.error "TypeError: object does not support the context manager protocol") :=
  ⟨fun _ _ _ => rfl, fun _ _ _ _ _ => rfl⟩

/-- C1: starting from the empty store, the invariant — each transaction's
`category_id` resolves to an existing category of matching
case-insensitive type — holds in every reachable state.  It holds
vacuously: every service call raises `TypeError` at its
`with get_session()` header (the C2 bug), so no call ever completes a
transaction and the empty store, which satisfies the invariant, is the
only reachable state.  In particular `update_category` and
`delete_category` preserve the invariant: the second and third conjuncts
evaluate them and show they raise on every input, never producing a
post-state that could violate it. -/
theorem C1_invariant_all_reachable :
    (∀ s : Store, Reachable s → storeInv s = true) ∧
    (∀ (i : Nat) (nn nt : Option String) (s : Store),
      update_category_call i nn nt s = Except.error "TypeError: object does not support the context manager protocol") ∧
    (∀ (i : Nat) (s : Store),
      delete_category_call i s = Except.error "TypeError: object does not support the context manager protocol") := by
  refine ⟨?_, fun i nn nt s => rfl, fun i s => rfl⟩
  intro s hs
  induction hs <;>
    first
      | decide
      | simp_all [create_category_call, update_category_call, delete_category_call,
          create_expense_call, update_expense_call, delete_expense_call,
          create_earning_call, update_earning_call, delete_earning_call,
          withStmt, get_session_call, isContextManager]

/-- C1 witness: the empty store is reachable, and the invariant holds
there. -/
theorem C1_invariant_all_reachable_witness : storeInv emptyStore = true :=
  C1_invariant_all_reachable.1 emptyStore Reachable.empty

/-- C3: the claim says a transaction create against a missing or
wrong-typed category returns the sentinel `None` with nothing persisted.
The source never returns at all: `create_expense` and `create_earning`
raise `TypeError` at their `with get_session()` headers on every input —
shown here universally for `create_earning` and at the claim's concrete
inputs for both (an expense against the earning-typed category 2 of
`sampleStore`; an earning against the nonexistent category 9) — before
the category validation in the body can run. -/
theorem C3_create_raises_session_error :
    create_expense_call 20240105 4250 2 none sampleStore = Except.error "TypeError: object does not support the context manager protocol" ∧
    create_earning_call 20240110 300000 9 none sampleStore = Except.error "TypeError: object does not support the context manager protocol" ∧
    (∀ (d : Nat) (a : Int) (cid : Nat) (ds : Option String) (s : Store),
      create_earning_call d a cid ds s = Except.error "TypeError: object does not support the context manager protocol") :=
  ⟨rfl, rfl, fun _ _ _ _ _ => rfl⟩

/-- C4: the claim says `update_earning` with a `new_category_id`
resolving to an expense-typed category returns `None` and leaves the
earning unmodified.  The source instead raises `TypeError` at the
`with get_session()` header on every input — in particular at the
claim's input (earning 1 of `sampleStore` retargeted to category 1,
whose type is `'expense'`, with new values for every other field also
supplied) — and never returns a value. -/
theorem C4_update_earning_raises_session_error :
    update_earning_call 1 (some 20240202) (some 999) (some 1) (some "moved") sampleStore =
      Except.error "TypeError: object does not support the context manager protocol" ∧
    (∀ (i : Nat) (nd : Option Nat) (na : Option Int) (nc : Option Nat)
       (nds : Option String) (s : Store),
      update_earning_call i nd na nc nds s = Except.error "TypeError: object does not support the context manager protocol") :=
  ⟨rfl, fun _ _ _ _ _ _ => rfl⟩

/-- C5: the claim says `create_category` with an already-used name
returns `None` with the original category unchanged.  At the claim's
input the duplicate-name premise holds of the store (first conjunct, a
data fact), yet the source raises `TypeError` at the
`with get_session()` header (second conjunct) and never reaches the
duplicate-name handling. -/
theorem C5_create_category_raises_session_error :
    sampleStore.categories.any (fun c => c.name == "Groceries") = true ∧
    create_category_call "Groceries" "budget" sampleStore = Except.error "TypeError: object does not support the context manager protocol" :=
  ⟨by decide, rfl⟩

/-- C6: the claim says the by-range queries return exactly the in-range
transactions.  The source functions raise `TypeError` at their
`with get_session()` headers on every input and return no list at all. -/
theorem C6_range_queries_raise_session_error :
    get_expenses_by_range_call sampleStore 20240101 20240131 = Except.error "TypeError: object does not support the context manager protocol" ∧
    get_earnings_by_range_call sampleStore 20240101 20240131 = Except.error "TypeError: object does not support the context manager protocol" ∧
    (∀ (s : Store) (a b : Nat),
      get_expenses_by_range_call s a b = Except.error "TypeError: object does not support the context manager protocol" ∧
      get_earnings_by_range_call s a b = Except.error "TypeError: object does not support the context manager protocol") :=
  ⟨rfl, rfl, fun _ _ _ => ⟨rfl, rfl⟩⟩

/-- C7: the claim says the case-insensitive type check lets the four
transaction operations proceed on case-variant category types.  Against
`caseStore` (types `'EXPENSE'` and `'Earning'`) all four source
operations raise `TypeError` at their `with get_session()` headers
before the comparison `category.type.lower()` is ever evaluated; no
operation proceeds. -/
theorem C7_case_variant_operations_raise :
    create_expense_call 20240106 100 1 none caseStore = Except.error "TypeError: object does not support the context manager protocol" ∧
    create_earning_call 20240111 200 2 none caseStore = Except.error "TypeError: object does not support the context manager protocol" ∧
    update_expense_call 1 none (some 77) (some 1) none caseStore = Except.error "TypeError: object does not support the context manager protocol" ∧
    update_earning_call 1 none (some 88) (some 2) none caseStore = Except.error "TypeError: object does not support the context manager protocol" :=
  ⟨rfl, rfl, rfl, rfl⟩

/-- C8: the claim says the deletes return `False` — a failure value, not
a raised error — on a nonexistent id, and `True` on an existing one.
Every source delete raises `TypeError` at its `with get_session()`
header on every input, nonexistent (id 99) and existing (id 1) alike,
and never returns a boolean. -/
theorem C8_deletes_raise_session_error :
    delete_category_call 99 sampleStore = Except.error "TypeError: object does not support the context manager protocol" ∧
    delete_expense_call 99 sampleStore = Except.error "TypeError: object does not support the context manager protocol" ∧
    delete_earning_call 99 sampleStore = Except.error "TypeError: object does not support the context manager protocol" ∧
    (∀ (i : Nat) (s : Store),
      delete_category_call i s = Except.error "TypeError: object does not support the context manager protocol" ∧
      delete_expense_call i s = Except.error "TypeError: object does not support the context manager protocol" ∧
      delete_earning_call i s = Except.error "TypeError: object does not support the context manager protocol") :=
  ⟨rfl, rfl, rfl, fun _ _ => ⟨rfl, rfl, rfl⟩⟩

/-- C9: the claim says an update with every optional argument left
`None` succeeds and returns the record.  The source `update_expense` and
`update_earning` raise `TypeError` at their `with get_session()` headers
on every input — in particular on the all-`None` call for the existing
records of `sampleStore` — and never return a record or `None`. -/
theorem C9_noop_update_raises_session_error :
    update_expense_call 1 none none none none sampleStore = Except.error "TypeError: object does not support the context manager protocol" ∧
    update_earning_call 1 none none none none sampleStore = Except.error "TypeError: object does not support the context manager protocol" ∧
    (∀ (i : Nat) (s : Store),
      update_expense_call i none none none none s = Except.error "TypeError: object does not support the context manager protocol" ∧
      update_earning_call i none none none none s = Except.error "TypeError: object does not support the context manager protocol") :=
  ⟨rfl, rfl, fun _ _ => ⟨rfl, rfl⟩⟩

/-- C10: the claim says `get_categories_by_type` returns exactly the
categories whose stored type equals the argument character for
character.  The source function raises `TypeError` at its
`with get_session()` header on every input — in particular on the
claim's query for `'expense'` against a store holding a type-`'Expense'`
category — and returns no list. -/
theorem C10_type_query_raises_session_error :
    get_categories_by_type_call ⟨[⟨1, "Groceries", "Expense"⟩], [], [], 2, 1, 1⟩ "expense" =
      Except.error "TypeError: object does not support the context manager protocol" ∧
    (∀ (s : Store) (t : String),
      get_categories_by_type_call s t = Except.error "TypeError: object does not support the context manager protocol") :=
  ⟨rfl, fun _ _ => rfl⟩

end CashFlow
